import Mathlib

/-!
# Gpredict: radio configuration store and autotrack preference panel

A shallow embedding of `src/radio-conf.c` and `src/sat-pref-autotrack.c`.

* A C string is the Lean `String` whose characters are its bytes: the character with
  code `b` (0 to 255) stands for the byte `b`, so ASCII text stands for itself and
  byte sequences that are not UTF-8 can be written down. A pointer that may be `NULL`
  is an `Option`.
* The GLib key-file object (`GKeyFile`) is embedded with its list of groups, the
  list of key-value pairs of each group and the per-group lookup table, together with
  the text format written by `g_key_file_to_data` and read by
  `g_key_file_load_from_file`.
* The file system is a partial map from paths to file contents together with a
  predicate telling which paths can currently be written.
* Module-level C statics (`dirty`, `reset`, `min_el_spin`) and the global settings
  store are fields of an explicit state record.
-/

namespace Gpredict

/-! ## GLib: character classes -/

/-- GLib `g_ascii_isspace`: space, horizontal tab, line feed, form feed and carriage
return (the vertical tab is not in the class). -/
def g_ascii_isspace (c : Char) : Bool :=
  c = ' ' || c = '\t' || c = '\n' || c = '\x0c' || c = '\r'

/-- GLib `g_ascii_iscntrl`: the ASCII control characters. -/
def g_ascii_iscntrl (c : Char) : Bool :=
  decide (c.toNat < 32) || c.toNat = 127

/-- GLib `g_ascii_strcasecmp (a, b) == 0`: equality up to ASCII letter case. -/
def g_ascii_strcaseeq (a b : List Char) : Bool :=
  a.map Char.toLower = b.map Char.toLower

/-- The byte ranges that must follow a leading byte for well-formed UTF-8 (no overlong
forms, no surrogates, nothing above U+10FFFF); `none` when the byte cannot start a
character. -/
def utf8_lead (c : Char) : Option (List (Nat × Nat)) :=
  if c.toNat < 0x80 then some []
  else if 0xC2 ≤ c.toNat ∧ c.toNat ≤ 0xDF then some [(0x80, 0xBF)]
  else if c.toNat = 0xE0 then some [(0xA0, 0xBF), (0x80, 0xBF)]
  else if 0xE1 ≤ c.toNat ∧ c.toNat ≤ 0xEC then some [(0x80, 0xBF), (0x80, 0xBF)]
  else if c.toNat = 0xED then some [(0x80, 0x9F), (0x80, 0xBF)]
  else if 0xEE ≤ c.toNat ∧ c.toNat ≤ 0xEF then some [(0x80, 0xBF), (0x80, 0xBF)]
  else if c.toNat = 0xF0 then some [(0x90, 0xBF), (0x80, 0xBF), (0x80, 0xBF)]
  else if 0xF1 ≤ c.toNat ∧ c.toNat ≤ 0xF3 then some [(0x80, 0xBF), (0x80, 0xBF), (0x80, 0xBF)]
  else if c.toNat = 0xF4 then some [(0x80, 0x8F), (0x80, 0xBF), (0x80, 0xBF)]
  else none

/-- Scan bytes as UTF-8; `pending` lists the ranges the next bytes of the current
character have to be in. -/
def utf8_scan : List (Nat × Nat) → List Char → Bool
  | pending, [] => pending.isEmpty
  | [], c :: cs =>
    match utf8_lead c with
    | none => false
    | some pending => utf8_scan pending cs
  | range :: pending, c :: cs =>
    decide (range.1 ≤ c.toNat ∧ c.toNat ≤ range.2) && utf8_scan pending cs

/-- GLib `g_utf8_validate (str, -1, NULL)`: whether the bytes are well-formed UTF-8. -/
def g_utf8_validate (str : List Char) : Bool :=
  utf8_scan [] str

/-! ## GLib: the key-file object -/

/-- One `Key=Value` entry of a group; `value` is kept in its escaped, on-disk form. -/
structure GKeyFileKeyValuePair where
  key : String
  value : String

/-- A named group: its entries, newest first (`g_list_prepend`), and the hash table
`lookup_map` from key to the value of the entry that lookups see. -/
structure GKeyFileGroup where
  name : String
  key_value_pairs : List GKeyFileKeyValuePair
  lookup_map : String → Option String

/-- The key-file object. `groups` holds the named groups, newest first;
`start_group` is the name of the first named group and `current_group` the group
the parser is adding entries to (`none` while still in the nameless leading group,
which holds comments only and is not represented). -/
structure GKeyFile where
  groups : List GKeyFileGroup
  start_group : Option String
  current_group : Option String

/-- GLib `g_key_file_new`: an empty key file. The C function never returns `NULL`. -/
def g_key_file_new : GKeyFile :=
  { groups := [], start_group := none, current_group := none }

/-- GLib `g_key_file_is_group_name`: non-empty, without brackets and control
characters. -/
def g_key_file_is_group_name (name : String) : Bool :=
  !name.data.isEmpty && name.data.all (fun c => c != ']' && c != '[' && !g_ascii_iscntrl c)

/-- GLib `g_key_file_is_key_name`: a non-empty run of characters other than `=`, `[`
and `]` that neither starts nor ends with a space, optionally followed by a locale tag
`[...]` made of alphanumerics and `-`, `_`, `.`, `@` (alphanumerics are taken as the
ASCII ones here). -/
def g_key_file_is_key_name (name : String) : Bool :=
  let stem := name.data.takeWhile (fun c => c != '=' && c != '[' && c != ']')
  let rest := name.data.dropWhile (fun c => c != '=' && c != '[' && c != ']')
  !stem.isEmpty && stem.head? != some ' ' && stem.getLast? != some ' ' &&
    (match rest with
     | [] => true
     | '[' :: tag =>
       (tag.dropWhile
          (fun c => c.isAlphanum || c = '-' || c = '_' || c = '.' || c = '@')) = [']']
     | _ => false)

/-- GLib `g_key_file_lookup_group`: the group with the given name, if any. -/
def g_key_file_lookup_group (key_file : GKeyFile) (group_name : String) :
    Option GKeyFileGroup :=
  key_file.groups.find? (fun g => g.name = group_name)

/-- Replace the first group named `group_name` by its image under `f`. -/
def update_group (group_name : String) (f : GKeyFileGroup → GKeyFileGroup) :
    List GKeyFileGroup → List GKeyFileGroup
  | [] => []
  | g :: gs =>
    if g.name = group_name then f g :: gs else g :: update_group group_name f gs

/-- GLib `g_key_file_add_group`: make the group current, creating it (in front of
the list) when it does not exist yet. -/
def g_key_file_add_group (key_file : GKeyFile) (group_name : String) : GKeyFile :=
  match g_key_file_lookup_group key_file group_name with
  | some _ => { key_file with current_group := some group_name }
  | none =>
    { groups := { name := group_name, key_value_pairs := [], lookup_map := fun _ => none }
                  :: key_file.groups
      start_group := match key_file.start_group with
                     | none => some group_name
                     | some s => some s
      current_group := some group_name }

/-- GLib `g_key_file_add_key_value_pair`: prepend the entry and let the lookup table
point to it. -/
def g_key_file_add_key_value_pair (group : GKeyFileGroup) (key value : String) :
    GKeyFileGroup :=
  { group with
    key_value_pairs := { key := key, value := value } :: group.key_value_pairs
    lookup_map := fun k => if k = key then some value else group.lookup_map k }

/-- Overwrite the value of the first entry with the given key. -/
def replace_pair_value (key value : String) :
    List GKeyFileKeyValuePair → List GKeyFileKeyValuePair
  | [] => []
  | p :: ps =>
    if p.key = key then { p with value := value } :: ps
    else p :: replace_pair_value key value ps

/-- Drop the first entry with the given key. -/
def remove_pair (key : String) : List GKeyFileKeyValuePair → List GKeyFileKeyValuePair
  | [] => []
  | p :: ps => if p.key = key then ps else p :: remove_pair key ps

/-- GLib `g_key_file_set_value`: nothing happens for an invalid group or key name
(`g_return_if_fail`); otherwise the group is created when missing and the entry is
created or has its value overwritten in place. -/
def g_key_file_set_value (key_file : GKeyFile) (group_name key value : String) :
    GKeyFile :=
  if !g_key_file_is_group_name group_name || !g_key_file_is_key_name key then key_file
  else
    match g_key_file_lookup_group key_file group_name with
    | none =>
      let kf := g_key_file_add_group key_file group_name
      let add := fun g => g_key_file_add_key_value_pair g key value
      { kf with groups := update_group group_name add kf.groups }
    | some group =>
      match group.lookup_map key with
      | none =>
        let add := fun g => g_key_file_add_key_value_pair g key value
        { key_file with groups := update_group group_name add key_file.groups }
      | some _ =>
        let set : GKeyFileGroup → GKeyFileGroup := fun g =>
          { g with
            key_value_pairs := replace_pair_value key value g.key_value_pairs
            lookup_map := fun k => if k = key then some value else g.lookup_map k }
        { key_file with groups := update_group group_name set key_file.groups }

/-- GLib `g_key_file_get_value`: the raw value, `none` (`NULL`) when the group or the
key is missing. -/
def g_key_file_get_value (key_file : GKeyFile) (group_name key : String) :
    Option String :=
  match g_key_file_lookup_group key_file group_name with
  | none => none
  | some group => group.lookup_map key

/-- GLib `g_key_file_has_key`. -/
def g_key_file_has_key (key_file : GKeyFile) (group_name key : String) : Bool :=
  (g_key_file_get_value key_file group_name key).isSome

/-- GLib `g_key_file_remove_key`: when group and key exist, the entry is unlinked from
the list and the key is deleted from the lookup table; otherwise nothing changes. -/
def g_key_file_remove_key (key_file : GKeyFile) (group_name key : String) : GKeyFile :=
  match g_key_file_lookup_group key_file group_name with
  | none => key_file
  | some group =>
    match group.lookup_map key with
    | none => key_file
    | some _ =>
      let del : GKeyFileGroup → GKeyFileGroup := fun g =>
        { g with
          key_value_pairs := remove_pair key g.key_value_pairs
          lookup_map := fun k => if k = key then none else g.lookup_map k }
      { key_file with groups := update_group group_name del key_file.groups }

/-- The value of the newest entry stored under `key` in the group, read from the list of
entries, which is what `g_key_file_to_data` writes, and not from the lookup table;
`none` when the group is missing or has no such entry. -/
def stored_value (key_file : GKeyFile) (group_name key : String) : Option String :=
  match g_key_file_lookup_group key_file group_name with
  | none => none
  | some group =>
    (group.key_value_pairs.find? (fun p => p.key = key)).map (fun p => p.value)

/-- The invariant GLib keeps between the two views of a group: what the lookup table
gives for a key is the value of the newest entry stored under that key. -/
def GKeyFileGroup.well_formed (group : GKeyFileGroup) : Prop :=
  ∀ key value : String, group.lookup_map key = some value →
    (group.key_value_pairs.find? (fun p => p.key = key)).map (fun p => p.value) = some value

/-- A key file all of whose groups keep the invariant. -/
def GKeyFile.well_formed (key_file : GKeyFile) : Prop :=
  ∀ group ∈ key_file.groups, group.well_formed

/-! ## GLib: string values -/

/-- GLib `g_key_file_parse_string_as_value` (without list separator): line feed,
carriage return and backslash are escaped everywhere, space and tab only while
`parsing_leading_space` is still set. -/
def g_key_file_parse_string_as_value (parsing_leading_space : Bool) :
    List Char → List Char
  | [] => []
  | c :: cs =>
    if c = ' ' then
      (if parsing_leading_space then ['\\', 's'] else [' '])
        ++ g_key_file_parse_string_as_value parsing_leading_space cs
    else if c = '\t' then
      (if parsing_leading_space then ['\\', 't'] else ['\t'])
        ++ g_key_file_parse_string_as_value parsing_leading_space cs
    else if c = '\n' then
      ['\\', 'n'] ++ g_key_file_parse_string_as_value parsing_leading_space cs
    else if c = '\r' then
      ['\\', 'r'] ++ g_key_file_parse_string_as_value parsing_leading_space cs
    else if c = '\\' then
      ['\\', '\\'] ++ g_key_file_parse_string_as_value false cs
    else c :: g_key_file_parse_string_as_value false cs

/-- GLib `g_key_file_parse_value_as_string` (without list pieces): undo the escapes.
An unknown escape is copied as it stands and a lone trailing backslash is dropped; the
error GLib records in both cases does not change the returned string. -/
def g_key_file_parse_value_as_string : List Char → List Char
  | [] => []
  | [c] => if c = '\\' then [] else [c]
  | c :: d :: cs =>
    if c = '\\' then
      (if d = 's' then [' ']
       else if d = 'n' then ['\n']
       else if d = 't' then ['\t']
       else if d = 'r' then ['\r']
       else if d = '\\' then ['\\']
       else ['\\', d]) ++ g_key_file_parse_value_as_string cs
    else c :: g_key_file_parse_value_as_string (d :: cs)

/-- GLib `g_key_file_set_string`: a `NULL` string is refused (`g_return_if_fail`),
otherwise the escaped string is stored with `g_key_file_set_value`. -/
def g_key_file_set_string (key_file : GKeyFile) (group_name key : String)
    (string : Option String) : GKeyFile :=
  match string with
  | none => key_file
  | some s =>
    g_key_file_set_value key_file group_name key
      (String.mk (g_key_file_parse_string_as_value true s.data))

/-- GLib `g_key_file_get_string`: `none` (`NULL`) when the group or the key is missing
and when the stored value is not valid UTF-8; otherwise the unescaped value. -/
def g_key_file_get_string (key_file : GKeyFile) (group_name key : String) :
    Option String :=
  match g_key_file_get_value key_file group_name key with
  | none => none
  | some value =>
    if !g_utf8_validate value.data then none
    else some (String.mk (g_key_file_parse_value_as_string value.data))

/-! ## GLib: the key-file text format -/

/-- GLib `g_key_file_to_data`: groups and entries are printed oldest first, a group as
`[name]` and an entry as `key=value`, each on a line of its own; before a group a blank
line is added when the text so far does not end in one. -/
def g_key_file_to_data (key_file : GKeyFile) : String :=
  key_file.groups.foldr
    (fun group data_string =>
      let separated :=
        match data_string.data.reverse with
        | _ :: c :: _ => if c != '\n' then data_string ++ "\n" else data_string
        | _ => data_string
      group.key_value_pairs.foldr
        (fun pair s => s ++ pair.key ++ "=" ++ pair.value ++ "\n")
        (separated ++ "[" ++ group.name ++ "]\n"))
    ""

/-- GLib `g_key_file_line_is_comment`. -/
def g_key_file_line_is_comment (line : List Char) : Bool :=
  match line with
  | [] => true
  | c :: _ => c = '#' || c = '\n'

/-- GLib `g_key_file_line_is_group`: an opening bracket, a closing bracket further on
and nothing but spaces and tabs behind it. -/
def g_key_file_line_is_group (line : List Char) : Bool :=
  match line with
  | [] => false
  | c :: p =>
    if c = '[' then
      match p.dropWhile (fun x => x != ']') with
      | [] => false
      | _ :: q => (q.dropWhile (fun x => x = ' ' || x = '\t')).isEmpty
    else false

/-- GLib `g_key_file_line_is_key_value_pair`: the line has an equals sign, and not as
its first character. -/
def g_key_file_line_is_key_value_pair (line : List Char) : Bool :=
  line.any (fun x => x = '=') && line.head? != some '='

/-- GLib `g_key_file_parse_group`: the name runs from behind the opening bracket to
the last closing bracket; an invalid name is a parse error (`false`). -/
def g_key_file_parse_group (key_file : GKeyFile) (line : List Char) : GKeyFile × Bool :=
  let group_name :=
    String.mk ((((line.reverse.dropWhile (fun x => x != ']')).drop 1).reverse).drop 1)
  if !g_key_file_is_group_name group_name then (key_file, false)
  else (g_key_file_add_group key_file group_name, true)

/-- GLib `key_get_locale`: the locale tag of a key `name[tag]`, if it has one. -/
def key_get_locale (key : String) : Option (List Char) :=
  if key.data.any (fun x => x = '[') then
    let locale := (key.data.reverse.takeWhile (fun x => x != '[')).reverse
    if locale.length + 1 ≤ 2 then none else some locale.dropLast
  else none

/-- GLib `g_key_file_locale_is_interesting` for a key file loaded without
`G_KEY_FILE_KEEP_TRANSLATIONS`: the tag is one of the language names of the process. -/
def g_key_file_locale_is_interesting (language_names : List String) (locale : List Char) :
    Bool :=
  language_names.any (fun l => g_ascii_strcaseeq l.data locale)

/-- GLib `g_key_file_parse_key_value_pair`: the key is the text before the first equals
sign without trailing white space, the value the text behind it without leading white
space. An entry outside any group, an invalid key name and an `Encoding` other than
UTF-8 in the start group are parse errors; an entry whose locale tag is of no interest
is skipped. -/
def g_key_file_parse_key_value_pair (language_names : List String) (key_file : GKeyFile)
    (line : List Char) : GKeyFile × Bool :=
  match key_file.current_group with
  | none => (key_file, false)
  | some current_group =>
    let key :=
      String.mk (((line.takeWhile (fun x => x != '=')).reverse.dropWhile g_ascii_isspace).reverse)
    if !g_key_file_is_key_name key then (key_file, false)
    else
      let value := ((line.dropWhile (fun x => x != '=')).drop 1).dropWhile g_ascii_isspace
      if key_file.start_group = some current_group && key = "Encoding"
          && !g_ascii_strcaseeq value "UTF-8".data then (key_file, false)
      else
        let add := fun g => g_key_file_add_key_value_pair g key (String.mk value)
        let added := { key_file with groups := update_group current_group add key_file.groups }
        match key_get_locale key with
        | none => (added, true)
        | some locale =>
          if g_key_file_locale_is_interesting language_names locale then (added, true)
          else (key_file, true)

/-- GLib `g_key_file_parse_line` for a key file loaded with flags `0`: leading white
space is skipped, a comment or blank line is dropped, a group header or an entry is
parsed, anything else is a parse error. -/
def g_key_file_parse_line (language_names : List String) (key_file : GKeyFile)
    (line : List Char) : GKeyFile × Bool :=
  let line_start := line.dropWhile g_ascii_isspace
  if g_key_file_line_is_comment line_start then (key_file, true)
  else if g_key_file_line_is_group line_start then g_key_file_parse_group key_file line_start
  else if g_key_file_line_is_key_value_pair line_start then
    g_key_file_parse_key_value_pair language_names key_file line_start
  else (key_file, false)

/-- GLib `g_key_file_parse_data` followed by the final `g_key_file_flush_parse_buffer`:
characters are gathered in `parse_buffer` up to a line feed, a carriage return right
before the line feed is dropped, and the line is parsed. Parsing stops at the first
error, the key file keeping what was read until then. -/
def g_key_file_parse_data (language_names : List String) :
    GKeyFile → List Char → List Char → GKeyFile × Bool
  | key_file, parse_buffer, [] =>
    if parse_buffer.isEmpty then (key_file, true)
    else g_key_file_parse_line language_names key_file parse_buffer
  | key_file, parse_buffer, c :: data =>
    if c = '\n' then
      let line :=
        if parse_buffer.getLast? = some '\r' then parse_buffer.dropLast else parse_buffer
      if line.isEmpty then g_key_file_parse_data language_names key_file [] data
      else
        match g_key_file_parse_line language_names key_file line with
        | (parsed, true) => g_key_file_parse_data language_names parsed [] data
        | (parsed, false) => (parsed, false)
    else g_key_file_parse_data language_names key_file (parse_buffer ++ [c]) data

/-! ## The process environment: configuration directory, files and log -/

/-- Severity of a log message (`sat_log_level_t`). -/
inductive sat_log_level_t where
  | SAT_LOG_LEVEL_ERROR
  | SAT_LOG_LEVEL_WARN
  | SAT_LOG_LEVEL_INFO
  | SAT_LOG_LEVEL_DEBUG
  deriving DecidableEq

/-- What the radio configuration code sees of the outside: `conf_dir` is the string
returned by `get_conf_dir ()` (defined outside the two source files and taken as
given), `language_names` the result of `g_get_language_names ()`, `files` the contents
of the regular files by path, `writable` the paths at which `g_file_set_contents`
succeeds, and `log` the messages handed to `sat_log_log`, oldest first. -/
structure World where
  conf_dir : String
  language_names : List String
  files : String → Option String
  writable : String → Bool
  log : List (sat_log_level_t × String)

/-- The repository function `get_conf_dir` (not in the two source files): the
configuration directory of the user. -/
def get_conf_dir (w : World) : String := w.conf_dir

/-- GLib `G_DIR_SEPARATOR_S` (POSIX). -/
def G_DIR_SEPARATOR_S : String := "/"

/-- Modelled from the spec: `sat_log_log` is not in the two source files; the spec
describes it as a logging sink taking a level and a formatted message. The message is
appended to the log. -/
def sat_log_log (w : World) (level : sat_log_level_t) (message : String) : World :=
  { w with log := w.log ++ [(level, message)] }

/-- GLib `g_key_file_load_from_file` with flags `0`: when the file cannot be opened
the call fails and leaves the key file as it is; otherwise the key file is cleared and
the text is parsed, the result telling whether parsing succeeded. -/
def g_key_file_load_from_file (w : World) (key_file : GKeyFile) (file : String) :
    GKeyFile × Bool :=
  match w.files file with
  | none => (key_file, false)
  | some contents => g_key_file_parse_data w.language_names g_key_file_new [] contents.data

/-- GLib `g_file_set_contents`: the file gets the given contents when the path can be
written; otherwise the call fails and the file system stays as it is. -/
def g_file_set_contents (w : World) (filename contents : String) : World × Bool :=
  if w.writable filename then
    ({ w with files := fun p => if p = filename then some contents else w.files p }, true)
  else (w, false)

/-! ## `radio-conf.c` -/

/-- The record `radio_conf_t` with the two fields the source uses. -/
structure radio_conf_t where
  name : Option String
  host : Option String
  deriving DecidableEq

/-- The macro `GROUP` of `radio-conf.c`. -/
def GROUP : String := "Radio"

/-- The macro `KEY_HOST` of `radio-conf.c`. -/
def KEY_HOST : String := "Host"

/-- The path both functions build with `g_strconcat`. -/
def rig_file_name (w : World) (name : String) : String :=
  get_conf_dir w ++ G_DIR_SEPARATOR_S ++ "hwconf" ++ G_DIR_SEPARATOR_S ++ name ++ ".rig"

/-- The function `radio_conf_read`. The result is the returned `gboolean`, the record
and the environment after the call. As in the source, the value returned by
`g_key_file_load_from_file` is dropped and the test is on the pointer `cfg`, which
`g_key_file_new` has set. -/
def radio_conf_read (conf : radio_conf_t) (w : World) : Bool × radio_conf_t × World :=
  match conf.name with
  | none => (false, conf, w)
  | some name =>
    let fname := rig_file_name w name
    let cfg : Option GKeyFile := some g_key_file_new
    let cfg := cfg.map (fun key_file => (g_key_file_load_from_file w key_file fname).1)
    match cfg with
    | none =>
      (false, conf,
        sat_log_log w sat_log_level_t.SAT_LOG_LEVEL_ERROR
          ("radio_conf_read" ++ ": Could not load file " ++ fname ++ "\n"))
    | some key_file =>
      (true, { conf with host := g_key_file_get_string key_file GROUP KEY_HOST }, w)

/-- The function `radio_conf_save`. The result is the environment after the call; the
outcome of `g_file_set_contents` is dropped as in the source. -/
def radio_conf_save (conf : radio_conf_t) (w : World) : World :=
  match conf.name with
  | none => w
  | some name =>
    let cfg := g_key_file_set_string g_key_file_new GROUP KEY_HOST conf.host
    let data := g_key_file_to_data cfg
    let fname := rig_file_name w name
    (g_file_set_contents w fname data).1

/-! ## GLib: integer values -/

/-- C `printf ("%d", value)`: the decimal digits, after a minus sign for a negative
number. -/
def printf_d (value : Int) : String :=
  match value with
  | Int.ofNat n => String.mk (Nat.toDigits 10 n)
  | Int.negSucc n => String.mk ('-' :: Nat.toDigits 10 (n + 1))

/-- C `isspace` in the C locale. -/
def isspace (c : Char) : Bool :=
  c = ' ' || c = '\t' || c = '\n' || c = '\x0b' || c = '\x0c' || c = '\r'

/-- C `strtol (nptr, &endptr, 10)`: white space, an optional sign and a run of decimal
digits. The result is the number read, not yet cut to the range of `long`, and the
text from `endptr` on; without any digit the number is `0` and `endptr` is `nptr`. -/
def strtol (nptr : List Char) : Int × List Char :=
  let s := nptr.dropWhile isspace
  let t := if s.head? = some '-' || s.head? = some '+' then s.drop 1 else s
  let digits := t.takeWhile Char.isDigit
  if digits.isEmpty then (0, nptr)
  else
    let n : Nat := digits.foldl (fun acc d => 10 * acc + (d.toNat - 48)) 0
    (if s.head? = some '-' then -(n : Int) else (n : Int), t.dropWhile Char.isDigit)

/-- The least `gint`. -/
def G_MININT : Int := -2147483648

/-- The greatest `gint`. -/
def G_MAXINT : Int := 2147483647

/-- GLib `g_key_file_parse_value_as_integer`: `none` stands for the error return, taken
for an empty value, for text other than white space behind the number and for a number
outside the range of `gint`. -/
def g_key_file_parse_value_as_integer (value : String) : Option Int :=
  let r := strtol value.data
  let stops_at_text :=
    match r.2 with
    | [] => false
    | c :: _ => !g_ascii_isspace c
  if value.data.isEmpty || stops_at_text then none
  else if r.1 < G_MININT || G_MAXINT < r.1 then none
  else some r.1

/-- GLib `g_key_file_set_integer`. -/
def g_key_file_set_integer (key_file : GKeyFile) (group_name key : String) (value : Int) :
    GKeyFile :=
  g_key_file_set_value key_file group_name key (printf_d value)

/-- GLib `g_key_file_get_integer`: `none` stands for the error return (missing group or
key, or a value that is not an integer). -/
def g_key_file_get_integer (key_file : GKeyFile) (group_name key : String) : Option Int :=
  match g_key_file_get_value key_file group_name key with
  | none => none
  | some value => g_key_file_parse_value_as_integer value

/-! ## The global settings store and the setting resolver -/

/-- The three constants of `config-keys.h` and `sat-cfg.h` that
`sat-pref-autotrack.c` uses; the headers are not among the source files, so the
constants are taken as given. -/
structure ConfigKeys where
  MOD_CFG_AUTOTRACK_SECTION : String
  MOD_CFG_AUTOTRACK_MIN_EL : String
  SAT_CFG_INT_AUTOTRACK_MIN_EL : Nat

/-- Modelled from the spec: the global settings store of `sat-cfg.c`, which is not
among the source files. The spec describes a store keyed by stable integer identifiers
with get, get-default, set and reset-to-default for integer entries, where get falls
back to the built-in default. `defval` holds the built-in defaults and `stored` the
values that have been set. -/
structure SatCfg where
  defval : Nat → Int
  stored : Nat → Option Int

/-- Modelled from the spec: `sat_cfg_get_int` of the missing `sat-cfg.c`, the stored
value or else the built-in default. -/
def sat_cfg_get_int (config : SatCfg) (param : Nat) : Int :=
  match config.stored param with
  | some v => v
  | none => config.defval param

/-- Modelled from the spec: `sat_cfg_get_int_def` of the missing `sat-cfg.c`, the
built-in default. -/
def sat_cfg_get_int_def (config : SatCfg) (param : Nat) : Int :=
  config.defval param

/-- Modelled from the spec: `sat_cfg_set_int` of the missing `sat-cfg.c`, store the
value. -/
def sat_cfg_set_int (config : SatCfg) (param : Nat) (value : Int) : SatCfg :=
  { config with stored := fun p => if p = param then some value else config.stored p }

/-- Modelled from the spec: `sat_cfg_reset_int` of the missing `sat-cfg.c`, go back to
the built-in default by forgetting the stored value. -/
def sat_cfg_reset_int (config : SatCfg) (param : Nat) : SatCfg :=
  { config with stored := fun p => if p = param then none else config.stored p }

/-- Modelled from the spec: `mod_cfg_get_int` of the missing `mod-cfg-get-param.c`,
the three-tier fallback: the key of the module-local key file, else the global store,
which itself falls back to the built-in default. -/
def mod_cfg_get_int (config : SatCfg) (f : GKeyFile) (sec key : String) (p : Nat) : Int :=
  match g_key_file_get_integer f sec key with
  | some v => v
  | none => sat_cfg_get_int config p

/-! ## GTK: the spin button -/

/-- The part of a `GtkSpinButton` the panel uses: the range and value of its
adjustment, and whether `spin_changed_cb` is connected to its `value-changed` signal.
The value is an integer: the control is created with step 1 (no decimal digits) and is
only ever set from integers. -/
structure GtkSpinButton where
  lower : Int
  upper : Int
  value : Int
  value_changed_connected : Bool
  deriving DecidableEq

/-- GTK `gtk_spin_button_new_with_range (min, max, step)`: the value starts at `min`;
no handler is connected. -/
def gtk_spin_button_new_with_range (min max : Int) : GtkSpinButton :=
  { lower := min, upper := max, value := min, value_changed_connected := false }

/-- GTK `gtk_spin_button_get_value_as_int`; `0` for a `NULL` widget
(`g_return_val_if_fail`). -/
def gtk_spin_button_get_value_as_int (spin_button : Option GtkSpinButton) : Int :=
  match spin_button with
  | none => 0
  | some b => b.value

/-! ## `sat-pref-autotrack.c` -/

/-- The state the panel code works on: the three statics of `sat-pref-autotrack.c`
(`min_el_spin`, `dirty`, `reset`) and the global settings store. -/
structure PanelState where
  min_el_spin : Option GtkSpinButton
  dirty : Bool
  reset : Bool
  sat_cfg : SatCfg

/-- The function `sat_pref_autotrack_cancel`. The result is the local key file (`none`
for a `NULL` pointer) and the state after the call. -/
def sat_pref_autotrack_cancel (cfg : Option GKeyFile) (st : PanelState) :
    Option GKeyFile × PanelState :=
  (cfg, { st with dirty := false })

/-- The function `sat_pref_autotrack_ok`. -/
def sat_pref_autotrack_ok (K : ConfigKeys) (cfg : Option GKeyFile) (st : PanelState) :
    Option GKeyFile × PanelState :=
  let r : Option GKeyFile × PanelState :=
    if st.dirty then
      match cfg with
      | some key_file =>
        (some (g_key_file_set_integer key_file K.MOD_CFG_AUTOTRACK_SECTION
                K.MOD_CFG_AUTOTRACK_MIN_EL (gtk_spin_button_get_value_as_int st.min_el_spin)),
         st)
      | none =>
        (none,
         { st with sat_cfg := sat_cfg_set_int st.sat_cfg K.SAT_CFG_INT_AUTOTRACK_MIN_EL
                                (gtk_spin_button_get_value_as_int st.min_el_spin) })
    else if st.reset then
      match cfg with
      | none =>
        (none, { st with sat_cfg := sat_cfg_reset_int st.sat_cfg K.SAT_CFG_INT_AUTOTRACK_MIN_EL })
      | some key_file =>
        (some (g_key_file_remove_key key_file K.MOD_CFG_AUTOTRACK_SECTION
                K.MOD_CFG_AUTOTRACK_MIN_EL),
         st)
    else (cfg, st)
  (r.1, { r.2 with dirty := false, reset := false })

/-- The callback `spin_changed_cb`. -/
def spin_changed_cb (st : PanelState) : PanelState :=
  { st with dirty := true }

/-- GTK `gtk_spin_button_set_value` on the static `min_el_spin`: the value is clamped
to the range of the control; when this changes the value, `value-changed` is emitted,
which runs `spin_changed_cb` if it is connected. Nothing happens for a `NULL` widget. -/
def gtk_spin_button_set_value (st : PanelState) (value : Int) : PanelState :=
  match st.min_el_spin with
  | none => st
  | some b =>
    let clamped := max b.lower (min value b.upper)
    let st1 := { st with min_el_spin := some { b with value := clamped } }
    if clamped ≠ b.value ∧ b.value_changed_connected = true then spin_changed_cb st1 else st1

/-- The callback `reset_cb`, connected to the reset button with `cfg` as user data. -/
def reset_cb (K : ConfigKeys) (cfg : Option GKeyFile) (st : PanelState) : PanelState :=
  let st1 :=
    match cfg with
    | none =>
      gtk_spin_button_set_value st (sat_cfg_get_int_def st.sat_cfg K.SAT_CFG_INT_AUTOTRACK_MIN_EL)
    | some _ =>
      gtk_spin_button_set_value st (sat_cfg_get_int st.sat_cfg K.SAT_CFG_INT_AUTOTRACK_MIN_EL)
  { st1 with reset := true, dirty := false }

/-- The function `sat_pref_autotrack_create`, as far as it touches the state: both
flags are cleared, a new spin button with range 0 to 180 replaces `min_el_spin`, it is
set to the resolved value, and only then `spin_changed_cb` is connected. -/
def sat_pref_autotrack_create (K : ConfigKeys) (cfg : Option GKeyFile) (st : PanelState) :
    PanelState :=
  let st1 := { st with dirty := false, reset := false }
  let st2 := { st1 with min_el_spin := some (gtk_spin_button_new_with_range 0 180) }
  let val :=
    match cfg with
    | some key_file =>
      mod_cfg_get_int st2.sat_cfg key_file K.MOD_CFG_AUTOTRACK_SECTION
        K.MOD_CFG_AUTOTRACK_MIN_EL K.SAT_CFG_INT_AUTOTRACK_MIN_EL
    | none => sat_cfg_get_int st2.sat_cfg K.SAT_CFG_INT_AUTOTRACK_MIN_EL
  let st3 := gtk_spin_button_set_value st2 val
  { st3 with min_el_spin :=
      st3.min_el_spin.map (fun b => { b with value_changed_connected := true }) }

/-- What can happen to a panel after it has been created. `spin_value_changed V` is
the `value-changed` signal of the spin button after the user has brought the displayed
value to `V`; `reset_clicked` is the `clicked` signal of the reset button. -/
inductive PanelEvent where
  | spin_value_changed (V : Int)
  | reset_clicked
  | ok
  | cancel

/-- The `value-changed` signal with the control now showing `V`: the connected handler
runs. -/
def spin_value_changed (V : Int) (st : PanelState) : PanelState :=
  match st.min_el_spin with
  | none => st
  | some b =>
    let st1 := { st with min_el_spin := some { b with value := V } }
    if b.value_changed_connected then spin_changed_cb st1 else st1

/-- One event on a panel created for `cfg`; the local key file and the state go in
and come out. -/
def panel_step (K : ConfigKeys) (e : PanelEvent) (s : Option GKeyFile × PanelState) :
    Option GKeyFile × PanelState :=
  match e with
  | PanelEvent.spin_value_changed V => (s.1, spin_value_changed V s.2)
  | PanelEvent.reset_clicked => (s.1, reset_cb K s.1 s.2)
  | PanelEvent.ok => sat_pref_autotrack_ok K s.1 s.2
  | PanelEvent.cancel => sat_pref_autotrack_cancel s.1 s.2

/-- A sequence of events, applied from left to right. -/
def panel_run (K : ConfigKeys) (es : List PanelEvent) (s : Option GKeyFile × PanelState) :
    Option GKeyFile × PanelState :=
  es.foldl (fun acc e => panel_step K e acc) s

/-! ## Sample values -/

/-- A sample environment: no file exists yet and every path can be written. -/
def sample_world : World :=
  { conf_dir := "/home/user/.config/Gpredict"
    language_names := ["C"]
    files := fun _ => none
    writable := fun _ => true
    log := [] }

/-- The sample environment with a file for the radio `icom` that breaks off in a line
which is neither comment, group nor entry. -/
def sample_world_malformed : World :=
  { sample_world with
    files := fun p =>
      if p = "/home/user/.config/Gpredict/hwconf/icom.rig" then
        some "[Radio]\nHost=10.0.0.7\nthis line is malformed\n"
      else none }

/-- Sample values for the three constants; any valid group name, key name and
identifier will do. -/
def sample_keys : ConfigKeys :=
  { MOD_CFG_AUTOTRACK_SECTION := "AUTOTRACK"
    MOD_CFG_AUTOTRACK_MIN_EL := "MIN_EL"
    SAT_CFG_INT_AUTOTRACK_MIN_EL := 0 }

/-- A sample global store: every built-in default is 10 and nothing has been set. -/
def sample_sat_cfg : SatCfg :=
  { defval := fun _ => 10, stored := fun _ => none }

/-- The state of a process in which no panel has been created yet. -/
def sample_panel_state : PanelState :=
  { min_el_spin := none, dirty := false, reset := false, sat_cfg := sample_sat_cfg }

/-- A sample module-local key file that overrides the minimum elevation with 30. -/
def sample_key_file : GKeyFile :=
  g_key_file_set_integer g_key_file_new "AUTOTRACK" "MIN_EL" 30

/-! ## Event sequences -/

/-- Whether the last event of the sequence is a `spin_value_changed`. -/
def last_is_spin_change (es : List PanelEvent) : Bool :=
  match es.reverse with
  | PanelEvent.spin_value_changed _ :: _ => true
  | _ => false

/-- Going back from the latest event: whether a reset click comes before any `ok`. -/
def reset_before_ok : List PanelEvent → Bool
  | [] => false
  | PanelEvent.reset_clicked :: _ => true
  | PanelEvent.ok :: _ => false
  | PanelEvent.spin_value_changed _ :: es => reset_before_ok es
  | PanelEvent.cancel :: es => reset_before_ok es

/-- Whether the reset button has been clicked since the last `ok` (or since the start
when there was no `ok`). -/
def reset_since_last_ok (es : List PanelEvent) : Bool :=
  reset_before_ok es.reverse

/-! # Theorems -/

/-! ## The key-file object -/

theorem find_update_group_same (n : String) (f : GKeyFileGroup → GKeyFileGroup)
    (hf : ∀ g, (f g).name = g.name) (gs : List GKeyFileGroup) :
    (update_group n f gs).find? (fun g => g.name = n)
      = (gs.find? (fun g => g.name = n)).map f := by
  induction gs with
  | nil => rfl
  | cons g gs ih =>
    by_cases h : g.name = n
    · simp [update_group, h, hf, List.find?]
    · simp [update_group, h, List.find?, ih]

theorem get_value_set_value (kf : GKeyFile) (g k v : String)
    (hg : g_key_file_is_group_name g = true) (hk : g_key_file_is_key_name k = true) :
    g_key_file_get_value (g_key_file_set_value kf g k v) g k = some v := by
  unfold g_key_file_set_value
  simp only [hg, hk, Bool.not_true, Bool.or_self, Bool.false_eq_true, if_false]
  cases hl : g_key_file_lookup_group kf g with
  | none =>
    simp only [g_key_file_add_group, hl]
    simp [g_key_file_get_value, g_key_file_lookup_group, update_group,
      g_key_file_add_key_value_pair]
  | some grp =>
    have hl2 : List.find? (fun x => decide (x.name = g)) kf.groups = some grp := hl
    cases hm : grp.lookup_map k with
    | none =>
      simp only [g_key_file_get_value, g_key_file_lookup_group, hm]
      rw [find_update_group_same]
      · simp [hl2, g_key_file_add_key_value_pair]
      · intro _; rfl
    | some old =>
      simp only [g_key_file_get_value, g_key_file_lookup_group, hm]
      rw [find_update_group_same]
      · simp [hl2]
      · intro _; rfl

theorem find_replace_pair_value_same (k v : String) (l : List GKeyFileKeyValuePair)
    (h : (l.find? (fun p => p.key = k)).isSome = true) :
    ((replace_pair_value k v l).find? (fun p => p.key = k)).map (fun p => p.value)
      = some v := by
  induction l with
  | nil => simp at h
  | cons p ps ih =>
    by_cases hp : p.key = k
    · simp [replace_pair_value, hp, List.find?]
    · have h2 : (ps.find? (fun p => p.key = k)).isSome = true := by
        simpa [List.find?, hp] using h
      simp only [replace_pair_value, hp, if_false, List.find?, decide_False]
      exact ih h2

theorem find_replace_pair_value_other (k v k2 : String) (hk : k2 ≠ k)
    (l : List GKeyFileKeyValuePair) :
    (replace_pair_value k v l).find? (fun p => p.key = k2)
      = l.find? (fun p => p.key = k2) := by
  induction l with
  | nil => rfl
  | cons p ps ih =>
    by_cases hp : p.key = k
    · have hp2 : ¬ p.key = k2 := fun e => hk (e.symm.trans hp)
      have hp3 : ¬ k = k2 := fun e => hk e.symm
      simp [replace_pair_value, hp, List.find?, hp3]
    · by_cases hp2 : p.key = k2
      · rw [replace_pair_value, if_neg hp]
        simp [List.find?, hp2]
      · rw [replace_pair_value, if_neg hp]
        simp [List.find?, hp2, ih]

theorem remove_pair_eq_eraseP (k : String) (l : List GKeyFileKeyValuePair) :
    remove_pair k l = l.eraseP (fun p => p.key = k) := by
  induction l with
  | nil => rfl
  | cons p ps ih =>
    by_cases hp : p.key = k
    · simp [remove_pair, hp, List.eraseP_cons]
    · simp [remove_pair, hp, List.eraseP_cons, ih]

theorem find_eraseP_other (k k2 : String) (hk : k2 ≠ k) (l : List GKeyFileKeyValuePair) :
    (l.eraseP (fun p => p.key = k)).find? (fun p => p.key = k2)
      = l.find? (fun p => p.key = k2) := by
  induction l with
  | nil => rfl
  | cons p ps ih =>
    by_cases hp : p.key = k
    · have hp2 : ¬ p.key = k2 := fun e => hk (e.symm.trans hp)
      have e1 : List.eraseP (fun p => decide (p.key = k)) (p :: ps) = ps := by
        simp [List.eraseP_cons, hp]
      have e2 : List.find? (fun p => decide (p.key = k2)) (p :: ps)
          = List.find? (fun p => decide (p.key = k2)) ps := by
        simp [List.find?, hp2]
      rw [e1, e2]
    · have e1 : List.eraseP (fun p => decide (p.key = k)) (p :: ps)
          = p :: List.eraseP (fun p => decide (p.key = k)) ps := by
        simp [List.eraseP_cons, hp]
      rw [e1]
      by_cases hp2 : p.key = k2
      · simp [List.find?, hp2]
      · simp [List.find?, hp2, ih]

theorem mem_update_group (n : String) (f : GKeyFileGroup → GKeyFileGroup)
    (gs : List GKeyFileGroup) (x : GKeyFileGroup) (hx : x ∈ update_group n f gs) :
    x ∈ gs ∨ ∃ g, gs.find? (fun g => g.name = n) = some g ∧ x = f g := by
  induction gs with
  | nil => simp [update_group] at hx
  | cons g gs ih =>
    by_cases h : g.name = n
    · simp only [update_group, h, if_true, List.mem_cons] at hx
      rcases hx with hx | hx
      · exact Or.inr ⟨g, by simp [List.find?, h], hx⟩
      · exact Or.inl (List.mem_cons_of_mem _ hx)
    · rw [update_group, if_neg h] at hx
      rcases List.mem_cons.mp hx with hx | hx
      · exact Or.inl (by rw [hx]; exact List.mem_cons_self _ _)
      · rcases ih hx with h1 | ⟨g2, h2, h3⟩
        · exact Or.inl (List.mem_cons_of_mem _ h1)
        · exact Or.inr ⟨g2, by simp [List.find?, h, h2], h3⟩

theorem well_formed_add_key_value_pair (g : GKeyFileGroup) (k v : String)
    (hg : g.well_formed) : (g_key_file_add_key_value_pair g k v).well_formed := by
  intro key value hl
  by_cases hk : key = k
  · subst hk
    simp only [g_key_file_add_key_value_pair, if_true, Option.some.injEq] at hl
    simp [g_key_file_add_key_value_pair, List.find?, hl]
  · have hk2 : ¬ k = key := fun e => hk e.symm
    simp only [g_key_file_add_key_value_pair, hk, if_false] at hl
    simp only [g_key_file_add_key_value_pair, List.find?, hk2, decide_False]
    exact hg key value hl

theorem well_formed_new : g_key_file_new.well_formed := by
  intro g hg
  simp [g_key_file_new] at hg

/-- Setting a value keeps the invariant between lookup table and stored entries. -/
theorem well_formed_set_value (kf : GKeyFile) (g k v : String) (hwf : kf.well_formed) :
    (g_key_file_set_value kf g k v).well_formed := by
  unfold g_key_file_set_value
  split_ifs with hn
  · exact hwf
  cases hl : g_key_file_lookup_group kf g with
  | none =>
    simp only [g_key_file_add_group, hl]
    intro x hx
    simp only [update_group, if_true, List.mem_cons] at hx
    rcases hx with hx | hx
    · rw [hx]
      apply well_formed_add_key_value_pair
      intro key value h0
      simp at h0
    · exact hwf x hx
  | some grp =>
    have hl2 : List.find? (fun x => decide (x.name = g)) kf.groups = some grp := hl
    have hgrp : grp.well_formed := hwf grp (List.mem_of_find?_eq_some hl2)
    cases hm : grp.lookup_map k with
    | none =>
      simp only [hm]
      intro x hx
      rcases mem_update_group _ _ _ x hx with h1 | ⟨g2, h2, h3⟩
      · exact hwf x h1
      · rw [h3]
        exact well_formed_add_key_value_pair g2 k v (hwf g2 (List.mem_of_find?_eq_some h2))
    | some old =>
      simp only [hm]
      intro x hx
      rcases mem_update_group _ _ _ x hx with h1 | ⟨g2, h2, h3⟩
      · exact hwf x h1
      · have e : g2 = grp := Option.some.inj (h2.symm.trans hl2)
        subst e
        rw [h3]
        intro key value hlk
        by_cases hk : key = k
        · subst hk
          simp only [if_true, Option.some.injEq] at hlk
          rw [← hlk]
          apply find_replace_pair_value_same
          have := hgrp key old hm
          cases hf : List.find? (fun p => decide (p.key = key)) g2.key_value_pairs with
          | none => rw [hf] at this; simp at this
          | some _ => rfl
        · simp only [hk, if_false] at hlk
          simp only [find_replace_pair_value_other k v key hk]
          exact hgrp key value hlk

theorem well_formed_add_group (kf : GKeyFile) (n : String) (hwf : kf.well_formed) :
    (g_key_file_add_group kf n).well_formed := by
  unfold g_key_file_add_group
  cases hl : g_key_file_lookup_group kf n with
  | some _ => exact hwf
  | none =>
    intro x hx
    simp only [List.mem_cons] at hx
    rcases hx with hx | hx
    · rw [hx]
      intro key value h0
      simp at h0
    · exact hwf x hx

theorem well_formed_update_add (kf : GKeyFile) (n k v : String) (hwf : kf.well_formed) :
    GKeyFile.well_formed
      { kf with groups :=
          update_group n (fun g => g_key_file_add_key_value_pair g k v) kf.groups } := by
  intro x hx
  rcases mem_update_group _ _ _ x hx with h1 | ⟨g2, h2, h3⟩
  · exact hwf x h1
  · rw [h3]
    exact well_formed_add_key_value_pair g2 k v (hwf g2 (List.mem_of_find?_eq_some h2))

/-- Removing a key keeps the invariant between lookup table and stored entries. -/
theorem well_formed_remove_key (kf : GKeyFile) (g k : String) (hwf : kf.well_formed) :
    (g_key_file_remove_key kf g k).well_formed := by
  unfold g_key_file_remove_key
  cases hl : g_key_file_lookup_group kf g with
  | none => exact hwf
  | some grp =>
    cases hm : grp.lookup_map k with
    | none => simpa only [hm] using hwf
    | some old =>
      simp only [hm]
      intro x hx
      rcases mem_update_group _ _ _ x hx with h1 | ⟨g2, h2, h3⟩
      · exact hwf x h1
      · rw [h3]
        intro key value hlk
        by_cases hk : key = k
        · simp [hk] at hlk
        · simp only [hk, if_false] at hlk
          simp only [remove_pair_eq_eraseP, find_eraseP_other k key hk]
          exact hwf g2 (List.mem_of_find?_eq_some h2) key value hlk

theorem well_formed_parse_line (L : List String) (kf : GKeyFile) (line : List Char)
    (hwf : kf.well_formed) : (g_key_file_parse_line L kf line).1.well_formed := by
  unfold g_key_file_parse_line
  simp only
  split_ifs
  · exact hwf
  · unfold g_key_file_parse_group
    simp only
    split_ifs
    · exact hwf
    · exact well_formed_add_group kf _ hwf
  · unfold g_key_file_parse_key_value_pair
    cases hc : kf.current_group with
    | none => exact hwf
    | some cur =>
      simp only
      split_ifs
      · exact hwf
      · exact hwf
      · cases key_get_locale _ with
        | none => exact well_formed_update_add kf _ _ _ hwf
        | some loc =>
          simp only
          split_ifs
          · exact well_formed_update_add kf _ _ _ hwf
          · exact hwf
  · exact hwf

/-- Every key file read from text keeps the invariant between lookup table and stored
entries. -/
theorem well_formed_parse_data (L : List String) (data : List Char) :
    ∀ (kf : GKeyFile) (buf : List Char), kf.well_formed →
      (g_key_file_parse_data L kf buf data).1.well_formed := by
  induction data with
  | nil =>
    intro kf buf hwf
    unfold g_key_file_parse_data
    split_ifs
    · exact hwf
    · exact well_formed_parse_line L kf buf hwf
  | cons c cs ih =>
    intro kf buf hwf
    unfold g_key_file_parse_data
    by_cases hc : c = '\n'
    · simp only [hc, if_true]
      generalize (if buf.getLast? = some '\r' then buf.dropLast else buf) = line
      by_cases he : line.isEmpty = true
      · simp only [he, if_true]
        exact ih kf [] hwf
      · simp only [he, if_false]
        have hp := well_formed_parse_line L kf line hwf
        revert hp
        generalize g_key_file_parse_line L kf line = r
        intro hp
        obtain ⟨r1, r2⟩ := r
        cases r2
        · exact hp
        · exact ih r1 [] hp
    · simp only [hc, if_false]
      exact ih kf (buf ++ [c]) hwf

theorem well_formed_load_from_file (w : World) (kf : GKeyFile) (file : String)
    (hwf : kf.well_formed) : (g_key_file_load_from_file w kf file).1.well_formed := by
  unfold g_key_file_load_from_file
  cases w.files file with
  | none => exact hwf
  | some contents => exact well_formed_parse_data _ _ _ _ well_formed_new

/-- After `g_key_file_set_value` on a well-formed key file, the newest entry stored
under the key, which is the one written out, carries the new value. -/
theorem stored_value_set_value (kf : GKeyFile) (g k v : String)
    (hg : g_key_file_is_group_name g = true) (hk : g_key_file_is_key_name k = true)
    (hwf : kf.well_formed) :
    stored_value (g_key_file_set_value kf g k v) g k = some v := by
  unfold g_key_file_set_value
  simp only [hg, hk, Bool.not_true, Bool.or_self, Bool.false_eq_true, if_false]
  cases hl : g_key_file_lookup_group kf g with
  | none =>
    simp only [g_key_file_add_group, hl]
    simp [stored_value, g_key_file_lookup_group, update_group,
      g_key_file_add_key_value_pair]
  | some grp =>
    have hl2 : List.find? (fun x => decide (x.name = g)) kf.groups = some grp := hl
    have hgrp : grp.well_formed := hwf grp (List.mem_of_find?_eq_some hl2)
    cases hm : grp.lookup_map k with
    | none =>
      simp only [stored_value, g_key_file_lookup_group, hm]
      rw [find_update_group_same]
      · simp [hl2, g_key_file_add_key_value_pair]
      · intro _; rfl
    | some old =>
      simp only [stored_value, g_key_file_lookup_group, hm]
      rw [find_update_group_same]
      · simp only [hl2, Option.map_some']
        apply find_replace_pair_value_same
        have := hgrp k old hm
        cases hf : List.find? (fun p => decide (p.key = k)) grp.key_value_pairs with
        | none => rw [hf] at this; simp at this
        | some _ => rfl
      · intro _; rfl

/-- Each decimal digit character is a digit and has the value it stands for. -/
theorem digitChar_spec (m : Nat) (h : m < 10) :
    (Nat.digitChar m).isDigit = true ∧ (Nat.digitChar m).toNat - 48 = m := by
  interval_cases m <;> decide

/-- With fuel above the number, the digit loop of `Nat.toDigits` puts a non-empty run
of digit characters in front of what it was given, and reading that run back in base
ten, starting from any number read so far, appends the number. -/
theorem toDigitsCore_reads_back (fuel n : Nat) (tail : List Char) (hfuel : n < fuel) :
    ∃ front : List Char,
      front ≠ [] ∧ (∀ ch ∈ front, ch.isDigit = true) ∧
      (∀ start : Nat, front.foldl (fun acc d => 10 * acc + (d.toNat - 48)) start
        = start * 10 ^ front.length + n) ∧
      Nat.toDigitsCore 10 fuel n tail = front ++ tail := by
  induction fuel generalizing n tail with
  | zero => omega
  | succ fuel ih =>
    have hd := digitChar_spec (n % 10) (Nat.mod_lt _ (by norm_num))
    by_cases h0 : n / 10 = 0
    · refine ⟨[Nat.digitChar (n % 10)], by simp, ?_, ?_, by simp [Nat.toDigitsCore, h0]⟩
      · intro ch hch
        simp only [List.mem_singleton] at hch
        rw [hch]; exact hd.1
      · intro start
        simp only [List.foldl, List.length_singleton, pow_one, hd.2]
        omega
    · have hlt : n / 10 < fuel := by omega
      obtain ⟨front, f1, f2, f3, f4⟩ := ih (n / 10) (Nat.digitChar (n % 10) :: tail) hlt
      refine ⟨front ++ [Nat.digitChar (n % 10)], by simp, ?_, ?_,
        by simp [Nat.toDigitsCore, h0, f4]⟩
      · intro ch hch
        rcases List.mem_append.mp hch with hch | hch
        · exact f2 ch hch
        · simp only [List.mem_singleton] at hch
          rw [hch]; exact hd.1
      · intro start
        rw [List.foldl_append, f3 start]
        simp only [List.foldl, hd.2, List.length_append, List.length_singleton, pow_succ]
        have := Nat.div_add_mod n 10
        nlinarith [this]

theorem toDigits_spec (n : Nat) :
    Nat.toDigits 10 n ≠ [] ∧ (∀ c ∈ Nat.toDigits 10 n, c.isDigit = true) ∧
    (Nat.toDigits 10 n).foldl (fun acc d => 10 * acc + (d.toNat - 48)) 0 = n := by
  have core := toDigitsCore_reads_back (n + 1) n [] (by omega)
  obtain ⟨front, f1, f2, f3, f4⟩ := core
  have e : Nat.toDigits 10 n = front := by
    simp [Nat.toDigits, f4]
  rw [e]
  refine ⟨f1, f2, ?_⟩
  rw [f3 0]; simp

theorem isDigit_not_isspace (c : Char) (h : c.isDigit = true) :
    isspace c = false ∧ c ≠ '-' ∧ c ≠ '+' := by
  refine ⟨?_, ?_, ?_⟩
  · cases hs : isspace c with
    | false => rfl
    | true =>
      simp only [isspace, Bool.or_eq_true, decide_eq_true_eq] at hs
      rcases hs with ((((hs | hs) | hs) | hs) | hs) | hs <;>
        (rw [hs] at h; exact absurd h (by decide))
  · intro e; rw [e] at h; exact absurd h (by decide)
  · intro e; rw [e] at h; exact absurd h (by decide)

theorem strtol_digits (ds : List Char) (hne : ds ≠ []) (hd : ∀ c ∈ ds, c.isDigit = true) :
    strtol ds = (((ds.foldl (fun acc d => 10 * acc + (d.toNat - 48)) 0 : Nat) : Int), []) ∧
    strtol ('-' :: ds)
      = (-((ds.foldl (fun acc d => 10 * acc + (d.toNat - 48)) 0 : Nat) : Int), []) := by
  obtain ⟨c, cs, rfl⟩ := List.exists_cons_of_ne_nil hne
  have hc := isDigit_not_isspace c (hd c (List.mem_cons_self _ _))
  have htw : List.takeWhile Char.isDigit (c :: cs) = c :: cs :=
    List.takeWhile_eq_self_iff.mpr hd
  have hdw : List.dropWhile Char.isDigit (c :: cs) = [] :=
    List.dropWhile_eq_nil_iff.mpr hd
  constructor
  · have h1 : List.dropWhile isspace (c :: cs) = c :: cs := by
      simp [List.dropWhile, hc.1]
    simp only [strtol, h1, List.head?_cons, Option.some.injEq, hc.2.1, hc.2.2,
      decide_False, Bool.or_self, Bool.false_eq_true, if_false, htw, hdw,
      List.isEmpty_cons]
  · have h1 : List.dropWhile isspace ('-' :: c :: cs) = '-' :: c :: cs := by
      rw [List.dropWhile_cons_of_neg]; decide
    simp only [strtol, h1, List.head?_cons, decide_True, Bool.true_or, if_true,
      List.drop_succ_cons, List.drop_zero, htw, hdw, List.isEmpty_cons, Bool.false_eq_true,
      if_false]

theorem parse_value_as_integer_printf_d (V : Int) (h1 : G_MININT ≤ V) (h2 : V ≤ G_MAXINT) :
    g_key_file_parse_value_as_integer (printf_d V) = some V := by
  cases V with
  | ofNat n =>
    obtain ⟨hne, hd, hv⟩ := toDigits_spec n
    have hs := (strtol_digits _ hne hd).1
    have hemp : (Nat.toDigits 10 n).isEmpty = false := by
      cases hx : Nat.toDigits 10 n with
      | nil => exact absurd hx hne
      | cons _ _ => rfl
    have h1' : ¬ ((n : Int) < G_MININT) := not_lt.mpr h1
    have h2' : ¬ (G_MAXINT < (n : Int)) := not_lt.mpr h2
    simp only [g_key_file_parse_value_as_integer, printf_d, hs, hv, hemp]
    simp [h1', h2']
  | negSucc n =>
    obtain ⟨hne, hd, hv⟩ := toDigits_spec (n + 1)
    have hs := (strtol_digits _ hne hd).2
    have e : -(((n + 1 : Nat)) : Int) = Int.negSucc n := rfl
    have h1' : ¬ (Int.negSucc n < G_MININT) := not_lt.mpr h1
    have h2' : ¬ (G_MAXINT < Int.negSucc n) := not_lt.mpr h2
    simp only [g_key_file_parse_value_as_integer, printf_d, hs, hv, e]
    simp [h1', h2']

theorem get_integer_set_integer (kf : GKeyFile) (g k : String) (V : Int)
    (hg : g_key_file_is_group_name g = true) (hk : g_key_file_is_key_name k = true)
    (h1 : G_MININT ≤ V) (h2 : V ≤ G_MAXINT) :
    g_key_file_get_integer (g_key_file_set_integer kf g k V) g k = some V := by
  simp only [g_key_file_get_integer, g_key_file_set_integer, get_value_set_value kf g k _ hg hk]
  exact parse_value_as_integer_printf_d V h1 h2
/-! ## String values: escaping -/

theorem create_flags (K : ConfigKeys) (cfg : Option GKeyFile) (st : PanelState) :
    (sat_pref_autotrack_create K cfg st).dirty = false ∧
    (sat_pref_autotrack_create K cfg st).reset = false ∧
    (sat_pref_autotrack_create K cfg st).sat_cfg = st.sat_cfg ∧
    ∃ b, (sat_pref_autotrack_create K cfg st).min_el_spin = some b ∧
      b.value_changed_connected = true := by
  simp [sat_pref_autotrack_create, gtk_spin_button_set_value,
    gtk_spin_button_new_with_range]

theorem spin_value_changed_connected (V : Int) (st : PanelState) (b : GtkSpinButton)
    (hb : st.min_el_spin = some b) (hc : b.value_changed_connected = true) :
    spin_value_changed V st
      = { st with min_el_spin := some { b with value := V }, dirty := true } := by
  simp [spin_value_changed, hb, hc, spin_changed_cb]

theorem reset_cb_spec (K : ConfigKeys) (cfg : Option GKeyFile) (st : PanelState) :
    (reset_cb K cfg st).dirty = false ∧ (reset_cb K cfg st).reset = true ∧
    (reset_cb K cfg st).sat_cfg = st.sat_cfg ∧
    ∀ b, st.min_el_spin = some b → b.value_changed_connected = true →
      ∃ b2, (reset_cb K cfg st).min_el_spin = some b2 ∧ b2.value_changed_connected = true := by
  refine ⟨by simp [reset_cb], by simp [reset_cb], ?_, ?_⟩
  · cases cfg <;> cases hb : st.min_el_spin <;>
      simp only [reset_cb, gtk_spin_button_set_value, hb, spin_changed_cb] <;>
      split_ifs <;> rfl
  · intro b hb hc
    cases cfg <;>
      simp only [reset_cb, gtk_spin_button_set_value, hb, spin_changed_cb] <;>
      split_ifs <;> exact ⟨_, rfl, hc⟩

theorem ok_flags (K : ConfigKeys) (cfg : Option GKeyFile) (st : PanelState) :
    (sat_pref_autotrack_ok K cfg st).2.dirty = false ∧
    (sat_pref_autotrack_ok K cfg st).2.reset = false ∧
    (sat_pref_autotrack_ok K cfg st).2.min_el_spin = st.min_el_spin := by
  refine ⟨rfl, rfl, ?_⟩
  simp only [sat_pref_autotrack_ok]
  cases cfg <;> cases st.dirty <;> cases st.reset <;> rfl

theorem panel_run_append (K : ConfigKeys) (es : List PanelEvent) (e : PanelEvent)
    (s : Option GKeyFile × PanelState) :
    panel_run K (es ++ [e]) s = panel_step K e (panel_run K es s) := by
  simp [panel_run, List.foldl_append]

theorem panel_run_flags (K : ConfigKeys) (cfg : Option GKeyFile) (st0 : PanelState)
    (es : List PanelEvent) :
    ((panel_run K es (cfg, sat_pref_autotrack_create K cfg st0)).2.dirty = true →
      last_is_spin_change es = true) ∧
    ((panel_run K es (cfg, sat_pref_autotrack_create K cfg st0)).2.reset = true →
      reset_since_last_ok es = true) ∧
    ∃ b, (panel_run K es (cfg, sat_pref_autotrack_create K cfg st0)).2.min_el_spin = some b ∧
      b.value_changed_connected = true := by
  induction es using List.reverseRecOn with
  | nil =>
    obtain ⟨h1, h2, _, h4⟩ := create_flags K cfg st0
    refine ⟨?_, ?_, h4⟩
    · intro h; rw [show panel_run K [] (cfg, sat_pref_autotrack_create K cfg st0)
        = (cfg, sat_pref_autotrack_create K cfg st0) from rfl, h1] at h
      exact absurd h (by decide)
    · intro h; rw [show panel_run K [] (cfg, sat_pref_autotrack_create K cfg st0)
        = (cfg, sat_pref_autotrack_create K cfg st0) from rfl, h2] at h
      exact absurd h (by decide)
  | append_singleton es e ih =>
    obtain ⟨_, ih2, b, hb, hc⟩ := ih
    rw [panel_run_append]
    generalize panel_run K es (cfg, sat_pref_autotrack_create K cfg st0) = s at *
    simp only [last_is_spin_change, reset_since_last_ok, List.reverse_append,
      List.reverse_singleton, List.singleton_append] at *
    cases e with
    | spin_value_changed V =>
      simp only [panel_step, spin_value_changed_connected V s.2 b hb hc, reset_before_ok]
      exact ⟨fun _ => trivial, ih2, _, rfl, hc⟩
    | reset_clicked =>
      obtain ⟨r1, r2, _, r4⟩ := reset_cb_spec K s.1 s.2
      simp only [panel_step, reset_before_ok]
      refine ⟨?_, fun _ => trivial, r4 b hb hc⟩
      intro h; rw [r1] at h; exact absurd h (by decide)
    | ok =>
      obtain ⟨r1, r2, r3⟩ := ok_flags K s.1 s.2
      simp only [panel_step, reset_before_ok]
      refine ⟨?_, ?_, b, r3.trans hb, hc⟩
      · intro h; rw [r1] at h; exact absurd h (by decide)
      · intro h; rw [r2] at h; exact absurd h (by decide)
    | cancel =>
      simp only [panel_step, sat_pref_autotrack_cancel, reset_before_ok]
      refine ⟨?_, ?_, b, hb, hc⟩
      · intro h; exact absurd h (by decide)
      · intro h
        exact ih2 (by simpa using h)

/-! ## `radio-conf.c`: the claims -/

/-- C2 (the code at the failing input): with the name set and the `.rig` file absent,
or present but not parsable, `g_key_file_load_from_file` fails, yet `radio_conf_read`
returns TRUE and logs nothing. -/
theorem radio_conf_read_load_failure_returns_true :
    (sample_world.files (rig_file_name sample_world "icom") = none ∧
     (g_key_file_load_from_file sample_world g_key_file_new
        (rig_file_name sample_world "icom")).2 = false ∧
     (radio_conf_read { name := some "icom", host := none } sample_world).1 = true ∧
     (radio_conf_read { name := some "icom", host := none } sample_world).2.2.log = []) ∧
    ((g_key_file_load_from_file sample_world_malformed g_key_file_new
        (rig_file_name sample_world_malformed "icom")).2 = false ∧
     (radio_conf_read { name := some "icom", host := none } sample_world_malformed).1 = true ∧
     (radio_conf_read { name := some "icom", host := none } sample_world_malformed).2.2.log
        = []) := by
  decide

/-- C3 (the code at the failing input): with the name set, the host `old-host` and the
`.rig` file absent, `radio_conf_read` replaces the host by `NULL`; with a file that
breaks off in a malformed line it replaces the host by what was read before that
line. -/
theorem radio_conf_read_load_failure_overwrites_host :
    (g_key_file_load_from_file sample_world g_key_file_new
        (rig_file_name sample_world "icom")).2 = false ∧
    (radio_conf_read { name := some "icom", host := some "old-host" } sample_world).2.1.host
      = none ∧
    (g_key_file_load_from_file sample_world_malformed g_key_file_new
        (rig_file_name sample_world_malformed "icom")).2 = false ∧
    (radio_conf_read { name := some "icom", host := some "old-host" }
        sample_world_malformed).2.1.host = some "10.0.0.7" := by
  decide

/-- C4: with the name unset, `radio_conf_read` returns FALSE and leaves the record
(so its host) and the environment (so every file, and the log) as they were, and
`radio_conf_save` leaves the environment as it was: no file is created or
overwritten. -/
theorem radio_conf_name_unset_no_effect (host : Option String) (w : World) :
    radio_conf_read { name := none, host := host } w
      = (false, { name := none, host := host }, w) ∧
    radio_conf_save { name := none, host := host } w = w := by
  simp [radio_conf_read, radio_conf_save]

/-! ## `sat-pref-autotrack.c`: the claims -/

theorem ok_dirty_local (K : ConfigKeys) (kf : GKeyFile) (st : PanelState)
    (hd : st.dirty = true) :
    (sat_pref_autotrack_ok K (some kf) st).1
      = some (g_key_file_set_integer kf K.MOD_CFG_AUTOTRACK_SECTION K.MOD_CFG_AUTOTRACK_MIN_EL
          (gtk_spin_button_get_value_as_int st.min_el_spin)) := by
  simp [sat_pref_autotrack_ok, hd]

theorem ok_dirty_global (K : ConfigKeys) (st : PanelState) (hd : st.dirty = true) :
    (sat_pref_autotrack_ok K none st).2.sat_cfg
      = sat_cfg_set_int st.sat_cfg K.SAT_CFG_INT_AUTOTRACK_MIN_EL
          (gtk_spin_button_get_value_as_int st.min_el_spin) := by
  simp [sat_pref_autotrack_ok, hd]

theorem sat_cfg_get_set (c : SatCfg) (p : Nat) (v : Int) :
    sat_cfg_get_int (sat_cfg_set_int c p v) p = v := by
  simp [sat_cfg_get_int, sat_cfg_set_int]

theorem created_then_changed (K : ConfigKeys) (cfg : Option GKeyFile) (st0 : PanelState)
    (V : Int) :
    (spin_value_changed V (sat_pref_autotrack_create K cfg st0)).dirty = true ∧
    gtk_spin_button_get_value_as_int
      (spin_value_changed V (sat_pref_autotrack_create K cfg st0)).min_el_spin = V ∧
    (spin_value_changed V (sat_pref_autotrack_create K cfg st0)).sat_cfg = st0.sat_cfg := by
  obtain ⟨_, _, h3, b, hb, hc⟩ := create_flags K cfg st0
  rw [spin_value_changed_connected V _ b hb hc]
  exact ⟨rfl, rfl, h3⟩

/-- C5: after `sat_pref_autotrack_create (cfg)`, a spin-value-changed event that leaves
the displayed integer at `V`, and `sat_pref_autotrack_ok (cfg)`, the local key file holds
the integer `V` under `MOD_CFG_AUTOTRACK_MIN_EL` in the autotrack section when `cfg` is
non-null: the lookup (`g_key_file_get_integer`) gives `V`, and the newest entry stored
under the key, the one `g_key_file_to_data` writes, is the decimal text of `V`. The global
store entry `SAT_CFG_INT_AUTOTRACK_MIN_EL` is `V` when `cfg` is null. The same holds for
`ok` in every state `st` in which `dirty` is set and the control shows `V`, whatever the
reset flag is: the key is present with value `V`, not removed, and the global value is
`V`, not its default. `V` is any `gint`, the section and key constants are valid
key-file names, and the key file is one whose lookup table agrees with its entries. -/
theorem sat_pref_autotrack_ok_commits_edit (K : ConfigKeys) (st0 st : PanelState)
    (kf : GKeyFile) (V : Int)
    (hsec : g_key_file_is_group_name K.MOD_CFG_AUTOTRACK_SECTION = true)
    (hkey : g_key_file_is_key_name K.MOD_CFG_AUTOTRACK_MIN_EL = true)
    (hmin : G_MININT ≤ V) (hmax : V ≤ G_MAXINT)
    (hwf : kf.well_formed)
    (hdirty : st.dirty = true)
    (hshown : gtk_spin_button_get_value_as_int st.min_el_spin = V) :
    (∃ kf2 : GKeyFile,
      (sat_pref_autotrack_ok K (some kf)
        (spin_value_changed V (sat_pref_autotrack_create K (some kf) st0))).1 = some kf2 ∧
      g_key_file_get_integer kf2 K.MOD_CFG_AUTOTRACK_SECTION K.MOD_CFG_AUTOTRACK_MIN_EL
        = some V ∧
      stored_value kf2 K.MOD_CFG_AUTOTRACK_SECTION K.MOD_CFG_AUTOTRACK_MIN_EL
        = some (printf_d V) ∧
      kf2.well_formed) ∧
    sat_cfg_get_int
      (sat_pref_autotrack_ok K none
        (spin_value_changed V (sat_pref_autotrack_create K none st0))).2.sat_cfg
      K.SAT_CFG_INT_AUTOTRACK_MIN_EL = V ∧
    (∃ kf2 : GKeyFile,
      (sat_pref_autotrack_ok K (some kf) st).1 = some kf2 ∧
      g_key_file_get_integer kf2 K.MOD_CFG_AUTOTRACK_SECTION K.MOD_CFG_AUTOTRACK_MIN_EL
        = some V ∧
      stored_value kf2 K.MOD_CFG_AUTOTRACK_SECTION K.MOD_CFG_AUTOTRACK_MIN_EL
        = some (printf_d V) ∧
      kf2.well_formed) ∧
    sat_cfg_get_int (sat_pref_autotrack_ok K none st).2.sat_cfg
      K.SAT_CFG_INT_AUTOTRACK_MIN_EL = V := by
  refine ⟨?_, ?_, ?_, ?_⟩
  · obtain ⟨h1, h2, _⟩ := created_then_changed K (some kf) st0 V
    refine ⟨_, ok_dirty_local K kf _ h1, ?_, ?_, ?_⟩
    · rw [h2]
      exact get_integer_set_integer kf _ _ V hsec hkey hmin hmax
    · rw [h2]
      exact stored_value_set_value kf _ _ _ hsec hkey hwf
    · exact well_formed_set_value kf _ _ _ hwf
  · obtain ⟨h1, h2, _⟩ := created_then_changed K none st0 V
    rw [ok_dirty_global K _ h1, h2]
    exact sat_cfg_get_set _ _ _
  · refine ⟨_, ok_dirty_local K kf st hdirty, ?_, ?_, ?_⟩
    · rw [hshown]
      exact get_integer_set_integer kf _ _ V hsec hkey hmin hmax
    · rw [hshown]
      exact stored_value_set_value kf _ _ _ hsec hkey hwf
    · exact well_formed_set_value kf _ _ _ hwf
  · rw [ok_dirty_global K st hdirty, hshown]
    exact sat_cfg_get_set _ _ _

/-- Witness for C5: the sample constants, the sample key file, which overrides the
minimum elevation with 30, the value 45, and a state in which both `dirty` and `reset`
are set while the control shows 45. The text written for the key file after the commit
has the one line `MIN_EL=45`. -/
theorem sat_pref_autotrack_ok_commits_edit_witness :
    (g_key_file_is_group_name sample_keys.MOD_CFG_AUTOTRACK_SECTION = true ∧
     g_key_file_is_key_name sample_keys.MOD_CFG_AUTOTRACK_MIN_EL = true ∧
     G_MININT ≤ (45 : Int) ∧ (45 : Int) ≤ G_MAXINT ∧ sample_key_file.well_formed) ∧
    (∃ kf2 : GKeyFile,
      (sat_pref_autotrack_ok sample_keys (some sample_key_file)
        { min_el_spin := some { lower := 0, upper := 180, value := 45,
                                value_changed_connected := true }
          dirty := true, reset := true, sat_cfg := sample_sat_cfg }).1 = some kf2 ∧
      g_key_file_get_integer kf2 sample_keys.MOD_CFG_AUTOTRACK_SECTION
        sample_keys.MOD_CFG_AUTOTRACK_MIN_EL = some 45 ∧
      stored_value kf2 sample_keys.MOD_CFG_AUTOTRACK_SECTION
        sample_keys.MOD_CFG_AUTOTRACK_MIN_EL = some (printf_d 45) ∧
      kf2.well_formed) ∧
    (g_key_file_to_data sample_key_file = "[AUTOTRACK]\nMIN_EL=30\n" ∧
     (sat_pref_autotrack_ok sample_keys (some sample_key_file)
        { min_el_spin := some { lower := 0, upper := 180, value := 45,
                                value_changed_connected := true }
          dirty := true, reset := true, sat_cfg := sample_sat_cfg }).1.map g_key_file_to_data
       = some "[AUTOTRACK]\nMIN_EL=45\n") :=
  ⟨⟨by decide, by decide, by decide, by decide,
     well_formed_set_value _ _ _ _ well_formed_new⟩,
   (sat_pref_autotrack_ok_commits_edit sample_keys sample_panel_state
      { min_el_spin := some { lower := 0, upper := 180, value := 45,
                              value_changed_connected := true }
        dirty := true, reset := true, sat_cfg := sample_sat_cfg } sample_key_file 45
      (by decide) (by decide) (by decide) (by decide)
      (well_formed_set_value _ _ _ _ well_formed_new) rfl rfl).2.2.1,
   by decide, by decide⟩

/-- C7: `sat_pref_autotrack_cancel (cfg)` persists nothing. In every state and for
either scope it leaves the local key file and the global store as they were, sets
`dirty` to false and leaves `reset` and the spin button (so the displayed value) as
they were. In particular after create, a spin-value-changed event and cancel, the
local key file and the global store are those from before the create. -/
theorem sat_pref_autotrack_cancel_persists_nothing (K : ConfigKeys)
    (cfg : Option GKeyFile) (st st0 : PanelState) (V : Int) :
    ((sat_pref_autotrack_cancel cfg st).1 = cfg ∧
     (sat_pref_autotrack_cancel cfg st).2.sat_cfg = st.sat_cfg ∧
     (sat_pref_autotrack_cancel cfg st).2.dirty = false ∧
     (sat_pref_autotrack_cancel cfg st).2.reset = st.reset ∧
     (sat_pref_autotrack_cancel cfg st).2.min_el_spin = st.min_el_spin) ∧
    ((sat_pref_autotrack_cancel cfg
        (spin_value_changed V (sat_pref_autotrack_create K cfg st0))).1 = cfg ∧
     (sat_pref_autotrack_cancel cfg
        (spin_value_changed V (sat_pref_autotrack_create K cfg st0))).2.sat_cfg
       = st0.sat_cfg) := by
  refine ⟨⟨rfl, rfl, rfl, rfl, rfl⟩, rfl, ?_⟩
  exact (created_then_changed K cfg st0 V).2.2

/-- C8: in the Clean state (`dirty` and `reset` both false), which is the state of the
flags after `sat_pref_autotrack_create` for either scope, `sat_pref_autotrack_ok (cfg)`
returns the local key file and the whole state, global store and flags included, as
they were. In every state a second `ok` right after the first changes nothing any
more. -/
theorem sat_pref_autotrack_ok_clean_noop (K : ConfigKeys) (cfg : Option GKeyFile)
    (b : Option GtkSpinButton) (c : SatCfg) (st : PanelState) :
    sat_pref_autotrack_ok K cfg { min_el_spin := b, dirty := false, reset := false, sat_cfg := c }
      = (cfg, { min_el_spin := b, dirty := false, reset := false, sat_cfg := c }) ∧
    ((sat_pref_autotrack_create K cfg st).dirty = false ∧
     (sat_pref_autotrack_create K cfg st).reset = false) ∧
    sat_pref_autotrack_ok K cfg (sat_pref_autotrack_create K cfg st)
      = (cfg, sat_pref_autotrack_create K cfg st) ∧
    sat_pref_autotrack_ok K (sat_pref_autotrack_ok K cfg st).1
        (sat_pref_autotrack_ok K cfg st).2
      = sat_pref_autotrack_ok K cfg st := by
  obtain ⟨h1, h2, _⟩ := create_flags K cfg st
  refine ⟨by simp [sat_pref_autotrack_ok], ⟨h1, h2⟩, ?_, by simp [sat_pref_autotrack_ok]⟩
  generalize sat_pref_autotrack_create K cfg st = s at *
  cases s
  simp only at h1 h2
  subst h1 h2
  simp [sat_pref_autotrack_ok]

/-- C9 (the code at the failing input): after create and a click on the reset button,
`sat_pref_autotrack_cancel` clears `dirty` but leaves `reset` set; an `ok` that follows
the cancel then still removes the override from the local key file. After a reset click
and `sat_pref_autotrack_ok`, in contrast, `reset` is false. -/
theorem sat_pref_autotrack_cancel_keeps_reset :
    (panel_run sample_keys [PanelEvent.reset_clicked, PanelEvent.cancel]
        (some sample_key_file,
         sat_pref_autotrack_create sample_keys (some sample_key_file)
           sample_panel_state)).2.dirty = false ∧
    (panel_run sample_keys [PanelEvent.reset_clicked, PanelEvent.cancel]
        (some sample_key_file,
         sat_pref_autotrack_create sample_keys (some sample_key_file)
           sample_panel_state)).2.reset = true ∧
    g_key_file_get_integer sample_key_file "AUTOTRACK" "MIN_EL" = some 30 ∧
    ((panel_run sample_keys [PanelEvent.reset_clicked, PanelEvent.cancel, PanelEvent.ok]
        (some sample_key_file,
         sat_pref_autotrack_create sample_keys (some sample_key_file)
           sample_panel_state)).1.map
      (fun kf => g_key_file_has_key kf "AUTOTRACK" "MIN_EL")) = some false ∧
    (panel_run sample_keys [PanelEvent.reset_clicked, PanelEvent.ok]
        (some sample_key_file,
         sat_pref_autotrack_create sample_keys (some sample_key_file)
           sample_panel_state)).2.reset = false := by
  decide

/-- C10 (as stated, refuted): after create, a click on the reset button and then a
spin-value-changed event, `dirty` and `reset` are both true. -/
theorem dirty_and_reset_both_set :
    (panel_run sample_keys [PanelEvent.reset_clicked, PanelEvent.spin_value_changed 45]
        (none, sat_pref_autotrack_create sample_keys none sample_panel_state)).2.dirty = true ∧
    (panel_run sample_keys [PanelEvent.reset_clicked, PanelEvent.spin_value_changed 45]
        (none, sat_pref_autotrack_create sample_keys none sample_panel_state)).2.reset = true := by
  decide

/-- C10 (amended): a reset click yields `dirty` false and `reset` true in every state,
also when setting the spin value inside `reset_cb` runs the value-changed callback. In
a state reached from `sat_pref_autotrack_create` by any sequence of spin-value-changed
events, reset clicks, `ok` and `cancel` calls, `dirty` and `reset` are true together
only if the last event is a spin-value-changed event and the reset button has been
clicked before it with no `ok` in between. -/
theorem flags_after_events (K : ConfigKeys) (cfg : Option GKeyFile) (st0 st : PanelState)
    (es : List PanelEvent) :
    ((reset_cb K cfg st).dirty = false ∧ (reset_cb K cfg st).reset = true) ∧
    ((panel_run K es (cfg, sat_pref_autotrack_create K cfg st0)).2.dirty = true ∧
     (panel_run K es (cfg, sat_pref_autotrack_create K cfg st0)).2.reset = true →
     last_is_spin_change es = true ∧ reset_since_last_ok es = true) := by
  obtain ⟨h1, h2, _⟩ := panel_run_flags K cfg st0 es
  obtain ⟨r1, r2, _⟩ := reset_cb_spec K cfg st
  exact ⟨⟨r1, r2⟩, fun hb => ⟨h1 hb.1, h2 hb.2⟩⟩

/-- Witness for C10 (amended): after create, a reset click and a spin-value-changed
event both flags are true, and the sequence is of the kind the theorem names. -/
theorem flags_after_events_witness :
    ((panel_run sample_keys [PanelEvent.reset_clicked, PanelEvent.spin_value_changed 45]
        (none, sat_pref_autotrack_create sample_keys none sample_panel_state)).2.dirty = true ∧
     (panel_run sample_keys [PanelEvent.reset_clicked, PanelEvent.spin_value_changed 45]
        (none, sat_pref_autotrack_create sample_keys none sample_panel_state)).2.reset
       = true) ∧
    (last_is_spin_change [PanelEvent.reset_clicked, PanelEvent.spin_value_changed 45] = true ∧
     reset_since_last_ok [PanelEvent.reset_clicked, PanelEvent.spin_value_changed 45]
       = true) :=
  ⟨by decide,
   (flags_after_events sample_keys none sample_panel_state sample_panel_state
      [PanelEvent.reset_clicked, PanelEvent.spin_value_changed 45]).2 (by decide)⟩

end Gpredict
